import Mathlib

/-!
Verification of the Google Sheets MCP server (src/server.py, src/server_http.py).

Each tool handler in the source builds a batch-update request body (a nest of
dicts) and shapes a small JSON result. We embed those builders as Lean
structures and functions, mirroring the Python dict shapes field by field.
Python ints are modelled as `Int`; Python float division of component bytes by
255 is modelled as exact division in `ℚ`; Python `None`-able parameters are
`Option`; a Python expression that can raise (hex parsing) is `Option`-valued.
-/

namespace SheetsMcp

/-! ## Colors: hex string → normalized RGB (server.py lines 606-617, 660-661, 834-835) -/

/-- Normalized RGB color dict `\x7b'red': r, 'green': g, 'blue': b\x7d`. -/
structure Color where
  red : ℚ
  green : ℚ
  blue : ℚ
deriving DecidableEq, Repr

/-- Value of one hexadecimal digit, as `int(c, 16)` accepts it. -/
def hexDigitVal (c : Char) : Option Nat :=
  if c.isDigit then some (c.toNat - 48)
  else if 'a' ≤ c ∧ c ≤ 'f' then some (c.toNat - 87)
  else if 'A' ≤ c ∧ c ≤ 'F' then some (c.toNat - 55)
  else none

/-- Python `int(s, 16)` on a plain hexadecimal digit string (the only form the
hex-color tools feed it); the empty string raises, modelled as `none`. -/
def parseHexNat (cs : List Char) : Option Nat :=
  match cs with
  | [] => none
  | _ => cs.foldlM (fun acc c => (hexDigitVal c).map (fun v => 16 * acc + v)) 0

/-- Python `color.lstrip('#')`: drop every leading `'#'`. -/
def lstripHash (s : String) : String :=
  ⟨s.data.dropWhile (· == '#')⟩

/-- Python slice `cs[i:i+2]`. -/
def slice2 (cs : List Char) (i : Nat) : List Char :=
  (cs.drop i).take 2

/-- The three component bytes `int(color[i:i+2], 16) for i in (0, 2, 4)` after
stripping the leading `'#'`. -/
def hexBytes (s : String) : Option (Nat × Nat × Nat) :=
  let cs := (lstripHash s).data
  match parseHexNat (slice2 cs 0), parseHexNat (slice2 cs 2), parseHexNat (slice2 cs 4) with
  | some r, some g, some b => some (r, g, b)
  | _, _, _ => none

/-- `r, g, b = tuple(int(color[i:i+2], 16) / 255 for i in (0, 2, 4))` after
`color.lstrip('#')`, as each formatting tool computes it inline. -/
def hexToRgb (s : String) : Option Color :=
  let cs := (lstripHash s).data
  match parseHexNat (slice2 cs 0), parseHexNat (slice2 cs 2), parseHexNat (slice2 cs 4) with
  | some r, some g, some b => some ⟨(r : ℚ) / 255, (g : ℚ) / 255, (b : ℚ) / 255⟩
  | _, _, _ => none

/-! ## Shared range shapes -/

/-- Structural rectangle `\x7bsheetId, startRowIndex, endRowIndex, startColumnIndex,
endColumnIndex\x7d` used by every rectangle-taking builder. -/
structure GridRange where
  sheetId : Int
  startRowIndex : Int
  endRowIndex : Int
  startColumnIndex : Int
  endColumnIndex : Int
deriving DecidableEq, Repr

/-- `\x7bsheetId, dimension, startIndex, endIndex\x7d` for dimension operations. -/
structure DimensionRange where
  sheetId : Int
  dimension : String
  startIndex : Int
  endIndex : Int
deriving DecidableEq, Repr

/-- Python truthiness of an optional string (`if s:`): present and non-empty. -/
def truthyStr (o : Option String) : Bool :=
  match o with
  | some s => !(s == "")
  | none => false

/-! ## sheets_format_cells (server.py lines 574-638) -/

/-- The `text_format` dict: keys are set only when the parameter was supplied. -/
structure TextFormat where
  bold : Option Bool
  italic : Option Bool
  fontSize : Option Int
  foregroundColor : Option Color
deriving DecidableEq, Repr

/-- A `text_format` dict with no keys is falsy, so `cell_format['textFormat']`
is not set at all. -/
def TextFormat.isEmptyDict (tf : TextFormat) : Bool :=
  tf.bold.isNone && tf.italic.isNone && tf.fontSize.isNone && tf.foregroundColor.isNone

/-- The `cell_format` dict. -/
structure CellFormat where
  textFormat : Option TextFormat
  backgroundColor : Option Color
deriving DecidableEq, Repr

/-- The `'cell'` entry `\x7b'userEnteredFormat': cell_format\x7d`. -/
structure CellEntry where
  userEnteredFormat : CellFormat
deriving DecidableEq, Repr

/-- One `repeatCell` request. `fields` is the field mask string. -/
structure RepeatCellRequest where
  range : GridRange
  cell : CellEntry
  fields : String
deriving DecidableEq, Repr

/-- Request built by `sheets_format_cells`; `none` models the `ValueError`
raised when a supplied color string fails hex parsing. Mirrors the source
order: bold/italic/font_size into `text_format`, then `text_color` (parsed and
stored as `foregroundColor`), then the `if text_format:` check, then
`bg_color`; the field mask is always the literal `'userEnteredFormat'`. -/
def sheets_format_cells_request (sheet_id start_row end_row start_col end_col : Int)
    (bold italic : Option Bool) (font_size : Option Int)
    (bg_color text_color : Option String) : Option RepeatCellRequest := do
  let tfBase : TextFormat := ⟨bold, italic, font_size, none⟩
  let tf ←
    if truthyStr text_color then do
      let c ← hexToRgb (text_color.getD "")
      pure { tfBase with foregroundColor := some c }
    else pure tfBase
  let tfEntry := if tf.isEmptyDict then none else some tf
  let bg ←
    if truthyStr bg_color then do
      let c ← hexToRgb (bg_color.getD "")
      pure (some c)
    else pure (none : Option Color)
  pure { range := ⟨sheet_id, start_row, end_row, start_col, end_col⟩,
         cell := ⟨⟨tfEntry, bg⟩⟩,
         fields := "userEnteredFormat" }

/-- Google field-mask coverage: mask path `mask` covers property path `path`
when it equals it or is a dot-separated ancestor of it. -/
def maskCovers (mask path : String) : Bool :=
  path == mask || List.isPrefixOf (mask.data ++ ['.']) path.data

/-! ## Credentials (server.py lines 21-74, server_http.py lines 47-79) -/

/-- A `google.oauth2.credentials.Credentials` object, reduced to the fields the
source inspects: `token`, `refresh_token`, `expired`. -/
structure Credential where
  token : Option String
  refreshToken : Option String
  expired : Bool
deriving DecidableEq, Repr

/-- `creds.valid` in google-auth: a token is present and not expired. -/
def Credential.valid (c : Credential) : Bool :=
  c.token.isSome && !c.expired

/-- The process environment and external collaborators `get_credentials` reads:
the three env vars, the parsed token file when it exists, and the outcomes of
the two external calls (`creds.refresh(Request())` and the interactive
`InstalledAppFlow` run), each of which can raise. -/
structure AuthEnv where
  googleClientId : Option String
  googleClientSecret : Option String
  googleRefreshToken : Option String
  tokenFileCreds : Option Credential
  refreshOutcome : Credential → Except String Credential
  flowOutcome : Except String Credential

/-- `get_credentials` of server.py, as a function of the module-global cache
`_creds` and the environment; returns the credential handed to the caller and
the new cache, or the propagated exception. -/
def get_credentials (cache : Option Credential) (env : AuthEnv) :
    Except String (Credential × Option Credential) :=
  match cache with
  | some c => .ok (c, some c)
  | none =>
    if truthyStr env.googleClientId && truthyStr env.googleClientSecret &&
        truthyStr env.googleRefreshToken then
      match env.refreshOutcome ⟨none, env.googleRefreshToken, false⟩ with
      | .ok c => .ok (c, some c)
      | .error e => .error e
    else
      match env.tokenFileCreds with
      | some c =>
        if c.valid then .ok (c, some c)
        else if c.expired && truthyStr c.refreshToken then
          match env.refreshOutcome c with
          | .ok c2 => .ok (c2, some c2)
          | .error e => .error e
        else
          match env.flowOutcome with
          | .ok c2 => .ok (c2, some c2)
          | .error e => .error e
      | none =>
        match env.flowOutcome with
        | .ok c2 => .ok (c2, some c2)
        | .error e => .error e

/-- `get_credentials` of server_http.py: identical cache and file-mode logic,
with no env-var mode. -/
def get_credentials_http (cache : Option Credential) (env : AuthEnv) :
    Except String (Credential × Option Credential) :=
  match cache with
  | some c => .ok (c, some c)
  | none =>
    match env.tokenFileCreds with
    | some c =>
      if c.valid then .ok (c, some c)
      else if c.expired && truthyStr c.refreshToken then
        match env.refreshOutcome c with
        | .ok c2 => .ok (c2, some c2)
        | .error e => .error e
      else
        match env.flowOutcome with
        | .ok c2 => .ok (c2, some c2)
        | .error e => .error e
    | none =>
      match env.flowOutcome with
      | .ok c2 => .ok (c2, some c2)
      | .error e => .error e

/-! ## sheets_delete_rows (server.py lines 204-240) -/

/-- One `deleteDimension` request. -/
structure DeleteDimensionRequest where
  range : DimensionRange
deriving DecidableEq, Repr

/-- The `requests` list built by `sheets_delete_rows`. -/
def sheets_delete_rows_requests (sheet_id start_row end_row : Int) :
    List DeleteDimensionRequest :=
  [⟨⟨sheet_id, "ROWS", start_row, end_row⟩⟩]

/-- Result object of `sheets_delete_rows`. -/
structure DeleteRowsResult where
  success : Bool
  deletedRows : Int
  message : String
deriving DecidableEq, Repr

/-- The JSON result of `sheets_delete_rows`: the `batchUpdate` reply is
discarded (the source does not even bind it); `deleted_count` is
`end_row - start_row` computed locally. `reply` stands for the remote reply
body, of arbitrary shape. -/
def sheets_delete_rows_result {ρ : Type} (start_row end_row : Int) (reply : ρ) :
    DeleteRowsResult :=
  let deleted_count := end_row - start_row
  ⟨true, deleted_count, "Deleted " ++ toString deleted_count ++ " row(s)"⟩

/-! ## sheets_insert_rows (server.py lines 243-279) -/

/-- One `insertDimension` request. -/
structure InsertDimensionRequest where
  range : DimensionRange
  inheritFromBefore : Bool
deriving DecidableEq, Repr

/-- The `requests` list built by `sheets_insert_rows`. -/
def sheets_insert_rows_requests (sheet_id start_row num_rows : Int) :
    List InsertDimensionRequest :=
  [⟨⟨sheet_id, "ROWS", start_row, start_row + num_rows⟩, false⟩]

/-- Result object of `sheets_insert_rows`. -/
structure InsertRowsResult where
  success : Bool
  insertedRows : Int
  message : String
deriving DecidableEq, Repr

/-- The JSON result of `sheets_insert_rows`: the reply is discarded; the count
is `num_rows` and the message cites `start_row + 1`. -/
def sheets_insert_rows_result {ρ : Type} (start_row num_rows : Int) (reply : ρ) :
    InsertRowsResult :=
  ⟨true, num_rows,
    "Inserted " ++ toString num_rows ++ " row(s) at row " ++ toString (start_row + 1)⟩

/-! ## sheets_get_sheet_id (server.py lines 179-201) -/

/-- One entry of the spreadsheet reply's `sheets` list, reduced to the two
properties the scan reads. -/
structure SheetInfo where
  title : String
  sheetId : Int
deriving DecidableEq, Repr

/-- Outcome of `sheets_get_sheet_id`: either the `\x7bsheetId, sheetName\x7d` dict or
the `\x7berror\x7d` dict, both returned as a normal JSON body. -/
inductive GetSheetIdOutcome where
  | found (sheetId : Int) (sheetName : String)
  | notFound (error : String)
deriving DecidableEq, Repr

/-- The `for sheet in spreadsheet.get('sheets', [])` scan: first sheet whose
title equals `sheet_name` (Python `==`, case-sensitive) wins; on no match, the
error dict with message `Sheet "name" not found`. -/
def sheets_get_sheet_id_outcome (sheets : List SheetInfo) (sheet_name : String) :
    GetSheetIdOutcome :=
  match sheets with
  | [] => .notFound ("Sheet \"" ++ sheet_name ++ "\" not found")
  | s :: rest =>
    if s.title == sheet_name then .found s.sheetId sheet_name
    else sheets_get_sheet_id_outcome rest sheet_name

/-- Substring containment, for stating "text includes". -/
def containsText (s sub : String) : Prop :=
  ∃ pre post, s.data = pre ++ sub.data ++ post

/-! ## sheets_create (server.py lines 81-110) -/

/-- A `\x7b'title': ...\x7d` properties dict. -/
structure TitleProperties where
  title : String
deriving DecidableEq, Repr

/-- One per-sheet block `\x7b'properties': \x7b'title': sheet\x7d\x7d`. -/
structure SheetBlock where
  properties : TitleProperties
deriving DecidableEq, Repr

/-- The spreadsheet-create body. -/
structure SpreadsheetCreateBody where
  properties : TitleProperties
  sheets : List SheetBlock
deriving DecidableEq, Repr

/-- Body built by `sheets_create`: `if not sheet_titles:` (None or empty list)
replaces the list with `["Sheet1"]`. -/
def sheets_create_body (title : String) (sheet_titles : Option (List String)) :
    SpreadsheetCreateBody :=
  let titles :=
    match sheet_titles with
    | none => ["Sheet1"]
    | some [] => ["Sheet1"]
    | some ts => ts
  ⟨⟨title⟩, titles.map (fun sheet => ⟨⟨sheet⟩⟩)⟩

/-! ## sheets_delete_duplicates (server.py lines 385-432) -/

/-- One `deleteDuplicates` request; `comparisonColumns` is set only when the
parameter list is truthy. -/
structure DeleteDuplicatesRequest where
  range : GridRange
  comparisonColumns : Option (List DimensionRange)
deriving DecidableEq, Repr

/-- Request built by `sheets_delete_duplicates`: `if comparison_columns:` is
Python truthiness, so both `None` and `[]` leave the key unset; otherwise each
listed column becomes the 1-wide COLUMNS range `[col, col+1)` on the same
sheet. -/
def sheets_delete_duplicates_request (sheet_id start_row end_row start_col end_col : Int)
    (comparison_columns : Option (List Int)) : DeleteDuplicatesRequest :=
  let base : DeleteDuplicatesRequest :=
    ⟨⟨sheet_id, start_row, end_row, start_col, end_col⟩, none⟩
  match comparison_columns with
  | none => base
  | some [] => base
  | some cols =>
    { base with
      comparisonColumns :=
        some (cols.map (fun col => ⟨sheet_id, "COLUMNS", col, col + 1⟩)) }

/-! ## sheets_add_chart (server.py lines 698-762) -/

/-- One source of a chart source range: the domain source carries
`startRowIndex`/`startColumnIndex` 0, the series source only `sheetId`. -/
structure ChartSourceRef where
  sheetId : Int
  startRowIndex : Option Int
  startColumnIndex : Option Int
deriving DecidableEq, Repr

/-- `\x7b'sources': [...]\x7d`. -/
structure ChartSourceRange where
  sources : List ChartSourceRef
deriving DecidableEq, Repr

/-- `\x7b'sourceRange': ...\x7d`. -/
structure ChartDomainBox where
  sourceRange : ChartSourceRange
deriving DecidableEq, Repr

/-- `\x7b'domain': \x7b'sourceRange': ...\x7d\x7d`. -/
structure ChartDomainEntry where
  domain : ChartDomainBox
deriving DecidableEq, Repr

/-- `\x7b'sourceRange': ...\x7d`. -/
structure ChartSeriesBox where
  sourceRange : ChartSourceRange
deriving DecidableEq, Repr

/-- `\x7b'series': \x7b'sourceRange': ...\x7d\x7d`. -/
structure ChartSeriesEntry where
  series : ChartSeriesBox
deriving DecidableEq, Repr

/-- One axis spec `\x7b'position': ...\x7d`. -/
structure ChartAxis where
  position : String
deriving DecidableEq, Repr

/-- The `basicChart` spec. -/
structure BasicChartSpec where
  chartType : String
  legendPosition : String
  axis : List ChartAxis
  domains : List ChartDomainEntry
  series : List ChartSeriesEntry
deriving DecidableEq, Repr

/-- The chart `spec`. -/
structure ChartSpec where
  title : String
  basicChart : BasicChartSpec
deriving DecidableEq, Repr

/-- `anchorCell` of the overlay position. -/
structure AnchorCell where
  sheetId : Int
  rowIndex : Int
  columnIndex : Int
deriving DecidableEq, Repr

/-- `\x7b'anchorCell': ...\x7d`. -/
structure OverlayPosition where
  anchorCell : AnchorCell
deriving DecidableEq, Repr

/-- `\x7b'overlayPosition': ...\x7d`. -/
structure EmbeddedObjectPosition where
  overlayPosition : OverlayPosition
deriving DecidableEq, Repr

/-- The embedded chart object `\x7b'spec': ..., 'position': ...\x7d`. -/
structure EmbeddedChart where
  spec : ChartSpec
  position : EmbeddedObjectPosition
deriving DecidableEq, Repr

/-- One `addChart` request. -/
structure AddChartRequest where
  chart : EmbeddedChart
deriving DecidableEq, Repr

/-- Request built by `sheets_add_chart`. `data_range` is accepted but never
written into the request (the source attaches only the sheet id to the
domain/series sources). -/
def sheets_add_chart_request (sheet_id : Int) (chart_type data_range title : String)
    (row col : Int) : AddChartRequest :=
  ⟨⟨⟨title,
      ⟨chart_type, "RIGHT_LEGEND",
        [⟨"BOTTOM_AXIS"⟩, ⟨"LEFT_AXIS"⟩],
        [⟨⟨⟨[⟨sheet_id, some 0, some 0⟩]⟩⟩⟩],
        [⟨⟨⟨[⟨sheet_id, none, none⟩]⟩⟩⟩]⟩⟩,
    ⟨⟨⟨sheet_id, row, col⟩⟩⟩⟩⟩

/-! ## Helper lemmas -/

/-- String append concatenates the underlying character lists. -/
theorem string_data_append (a b : String) : (a ++ b).data = a.data ++ b.data := rfl

/-- `lstrip('#')` absorbs a prepended `'#'`. -/
theorem lstripHash_hash_append (s : String) : lstripHash ("#" ++ s) = lstripHash s := by
  cases s
  rfl

/-! ## Theorems for the claims -/

/-- C1 counterexample: calling `sheets_format_cells` with only `bold=true`
builds a repeatCell request whose field mask is the constant
`"userEnteredFormat"`; that mask covers the `backgroundColor` property even
though no background color was set, so the mask is not limited to the
properties actually set. -/
theorem format_cells_mask_not_limited :
    sheets_format_cells_request 0 0 1 0 1 (some true) none none none none =
      some ⟨⟨0, 0, 1, 0, 1⟩, ⟨⟨some ⟨some true, none, none, none⟩, none⟩⟩,
            "userEnteredFormat"⟩ ∧
    maskCovers "userEnteredFormat" "userEnteredFormat.backgroundColor" = true :=
  ⟨rfl, rfl⟩

/-- C1 (amended): when only `bold` is supplied, the built repeatCell request's
cell payload touches text formatting only — `backgroundColor` and
`foregroundColor` are absent (not null) — while the field mask is the constant
string `"userEnteredFormat"` (not a mask limited to the properties set). -/
theorem format_cells_bold_only (sheet_id start_row end_row start_col end_col : Int)
    (b : Bool) :
    sheets_format_cells_request sheet_id start_row end_row start_col end_col
        (some b) none none none none =
      some ⟨⟨sheet_id, start_row, end_row, start_col, end_col⟩,
            ⟨⟨some ⟨some b, none, none, none⟩, none⟩⟩, "userEnteredFormat"⟩ :=
  rfl

/-- A credential sitting in the process cache with an expired token. -/
def expiredCachedCred : Credential := ⟨some "cached-token", none, true⟩

/-- An environment in which both external auth calls would fail. -/
def idleAuthEnv : AuthEnv :=
  ⟨none, none, none, none, fun _ => .error "refresh unavailable", .error "flow unavailable"⟩

/-- C2 counterexample: both servers' `get_credentials` return a cached
credential without re-checking expiry, so a call served from the cache can
return a credential whose access token is expired without failing. -/
theorem credentials_cache_returns_expired :
    get_credentials (some expiredCachedCred) idleAuthEnv =
        .ok (expiredCachedCred, some expiredCachedCred) ∧
    get_credentials_http (some expiredCachedCred) idleAuthEnv =
        .ok (expiredCachedCred, some expiredCachedCred) ∧
    expiredCachedCred.valid = false :=
  ⟨rfl, rfl, rfl⟩

/-- C2 (amended): on a cache-miss call (cache empty), every credential either
server returns is valid (non-expired token) or the call fails, provided the
external refresh and interactive-flow calls only succeed with valid
credentials. Cache hits return the cached credential with no expiry check. -/
theorem credentials_fresh_path_valid (env : AuthEnv)
    (href : ∀ c c2, env.refreshOutcome c = .ok c2 → c2.valid = true)
    (hflow : ∀ c2, env.flowOutcome = .ok c2 → c2.valid = true) :
    (∀ c cache2, get_credentials none env = .ok (c, cache2) → c.valid = true) ∧
    (∀ c cache2, get_credentials_http none env = .ok (c, cache2) → c.valid = true) := by
  constructor
  · intro c cache2 h
    simp only [get_credentials] at h
    repeat' split at h
    all_goals first
      | (cases h; assumption)
      | (cases h; exact href _ _ (by assumption))
      | (cases h; exact hflow _ (by assumption))
      | cases h
  · intro c cache2 h
    simp only [get_credentials_http] at h
    repeat' split at h
    all_goals first
      | (cases h; assumption)
      | (cases h; exact href _ _ (by assumption))
      | (cases h; exact hflow _ (by assumption))
      | cases h

/-- An environment whose token file holds a valid credential. -/
def freshTokenEnv : AuthEnv :=
  ⟨none, none, none, some ⟨some "file-token", none, false⟩,
    fun _ => .error "refresh unavailable", .error "flow unavailable"⟩

/-- Witness for the amended C2 theorem at a concrete environment. -/
theorem credentials_fresh_path_valid_witness :
    get_credentials none freshTokenEnv =
        .ok (⟨some "file-token", none, false⟩, some ⟨some "file-token", none, false⟩) ∧
    Credential.valid ⟨some "file-token", none, false⟩ = true := by
  refine ⟨rfl, ?_⟩
  exact (credentials_fresh_path_valid freshTokenEnv
      (fun c c2 h => by simp [freshTokenEnv] at h)
      (fun c2 h => by simp [freshTokenEnv] at h)).1 _ _ rfl

/-- C3: for `start_row = a < b = end_row`, the reported `deletedRows` is
`b - a`, and the result does not depend on the remote reply body at all. -/
theorem delete_rows_count_local (start_row end_row : Int) (h : start_row < end_row) :
    (∀ {ρ : Type} (reply : ρ),
        (sheets_delete_rows_result start_row end_row reply).deletedRows =
          end_row - start_row) ∧
    (∀ {ρ : Type} (r1 r2 : ρ),
        sheets_delete_rows_result start_row end_row r1 =
          sheets_delete_rows_result start_row end_row r2) :=
  ⟨fun _ => rfl, fun _ _ => rfl⟩

/-- Witness for C3 at `start_row = 2`, `end_row = 5` and two different replies. -/
theorem delete_rows_count_local_witness :
    (sheets_delete_rows_result 2 5 (0 : Nat)).deletedRows = 5 - 2 ∧
    sheets_delete_rows_result 2 5 (0 : Nat) = sheets_delete_rows_result 2 5 (37 : Nat) :=
  ⟨(delete_rows_count_local 2 5 (by decide)).1 0,
   (delete_rows_count_local 2 5 (by decide)).2 0 37⟩

/-- C4: the reported `insertedRows` equals `num_rows` regardless of the reply,
and the message cites row `start_row + 1`, the 1-based surface of the 0-based
start index. -/
theorem insert_rows_count_and_message (start_row num_rows : Int) {ρ : Type} (reply : ρ) :
    (sheets_insert_rows_result start_row num_rows reply).insertedRows = num_rows ∧
    (sheets_insert_rows_result start_row num_rows reply).message =
      "Inserted " ++ toString num_rows ++ " row(s) at row " ++ toString (start_row + 1) :=
  ⟨rfl, rfl⟩

/-- C5: when a sheet with exactly the given title exists, the scan returns the
`found` dict with that title's sheet id; otherwise it returns the `error` dict
whose text includes "not found". Matching is Python `==` on strings, hence
exact and case-sensitive. -/
theorem get_sheet_id_lookup (sheets : List SheetInfo) (sheet_name : String) :
    ((∃ s ∈ sheets, s.title = sheet_name) →
      ∃ id, sheets_get_sheet_id_outcome sheets sheet_name = .found id sheet_name ∧
        ∃ s ∈ sheets, s.title = sheet_name ∧ s.sheetId = id) ∧
    ((∀ s ∈ sheets, s.title ≠ sheet_name) →
      ∃ err, sheets_get_sheet_id_outcome sheets sheet_name = .notFound err ∧
        containsText err "not found") := by
  induction sheets with
  | nil =>
    refine ⟨?_, ?_⟩
    · rintro ⟨s, hs, _⟩
      cases hs
    · intro _
      refine ⟨_, rfl, ("Sheet \"" ++ sheet_name ++ "\" ").data, [], ?_⟩
      simp only [string_data_append, List.append_assoc, List.append_nil]
      rfl
  | cons s rest ih =>
    refine ⟨?_, ?_⟩
    · rintro ⟨t, ht, htitle⟩
      simp only [sheets_get_sheet_id_outcome]
      by_cases heq : (s.title == sheet_name) = true
      · rw [if_pos heq]
        exact ⟨s.sheetId, rfl, s, List.mem_cons_self s rest, by simpa using heq, rfl⟩
      · rw [if_neg heq]
        have hmem : t ∈ rest := by
          cases ht with
          | head => exact absurd (by simpa using htitle) heq
          | tail _ h => exact h
        obtain ⟨id, hout, u, hu, h1, h2⟩ := ih.1 ⟨t, hmem, htitle⟩
        exact ⟨id, hout, u, List.mem_cons_of_mem _ hu, h1, h2⟩
    · intro hall
      simp only [sheets_get_sheet_id_outcome]
      have hne : ¬((s.title == sheet_name) = true) := by
        simpa using hall s (List.mem_cons_self s rest)
      rw [if_neg hne]
      exact ih.2 fun u hu => hall u (List.mem_cons_of_mem _ hu)

/-- Witness for C5: an exact-title hit returns `found 42`, and a lookup
differing only in case misses and yields the "not found" error dict. -/
theorem get_sheet_id_lookup_witness :
    (∃ id, sheets_get_sheet_id_outcome [⟨"Data", 42⟩] "Data" = .found id "Data" ∧
        ∃ s ∈ [(⟨"Data", 42⟩ : SheetInfo)], s.title = "Data" ∧ s.sheetId = id) ∧
    (∃ err, sheets_get_sheet_id_outcome [⟨"Data", 42⟩] "data" = .notFound err ∧
        containsText err "not found") :=
  ⟨(get_sheet_id_lookup [⟨"Data", 42⟩] "Data").1 (by decide),
   (get_sheet_id_lookup [⟨"Data", 42⟩] "data").2 (by decide)⟩

/-- C6: hex-color normalization divides each parsed two-hex-digit component
byte by 255; `"#FF0000"` yields `(1, 0, 0)`, `"#000000"` yields `(0, 0, 0)`,
and a leading `'#'` never changes the result. -/
theorem hex_color_normalization :
    (∀ s r g b, hexBytes s = some (r, g, b) →
      hexToRgb s = some ⟨(r : ℚ) / 255, (g : ℚ) / 255, (b : ℚ) / 255⟩) ∧
    hexToRgb "#FF0000" = some ⟨1, 0, 0⟩ ∧
    hexToRgb "#000000" = some ⟨0, 0, 0⟩ ∧
    (∀ s, hexToRgb ("#" ++ s) = hexToRgb s) := by
  have hff : hexToRgb "#FF0000" =
      some ⟨((255 : Nat) : ℚ) / 255, ((0 : Nat) : ℚ) / 255, ((0 : Nat) : ℚ) / 255⟩ := rfl
  have h00 : hexToRgb "#000000" =
      some ⟨((0 : Nat) : ℚ) / 255, ((0 : Nat) : ℚ) / 255, ((0 : Nat) : ℚ) / 255⟩ := rfl
  refine ⟨?_, by rw [hff]; norm_num, by rw [h00]; norm_num, ?_⟩
  · intro s r g b h
    simp only [hexBytes] at h
    simp only [hexToRgb]
    rcases hr : parseHexNat (slice2 (lstripHash s).data 0) with _ | r0 <;>
      rcases hg : parseHexNat (slice2 (lstripHash s).data 2) with _ | g0 <;>
        rcases hb : parseHexNat (slice2 (lstripHash s).data 4) with _ | b0 <;>
          rw [hr, hg, hb] at h <;> simp_all
  · intro s
    simp only [hexToRgb, lstripHash_hash_append]

/-- Witness for C6 at a concrete color with all three components distinct. -/
theorem hex_color_normalization_witness :
    hexToRgb "FF8000" =
      some ⟨((255 : Nat) : ℚ) / 255, ((128 : Nat) : ℚ) / 255, ((0 : Nat) : ℚ) / 255⟩ :=
  hex_color_normalization.1 "FF8000" 255 128 0 rfl

/-- C7: with the sheet-title list omitted or empty, the create body requests
exactly one sheet, named "Sheet1". -/
theorem create_default_sheet (title : String) (sheet_titles : Option (List String))
    (h : sheet_titles = none ∨ sheet_titles = some []) :
    (sheets_create_body title sheet_titles).sheets = [⟨⟨"Sheet1"⟩⟩] := by
  rcases h with h | h <;> subst h <;> rfl

/-- Witness for C7: creating "Test" with no sheet list. -/
theorem create_default_sheet_witness :
    (sheets_create_body "Test" none).sheets = [⟨⟨"Sheet1"⟩⟩] :=
  create_default_sheet "Test" none (Or.inl rfl)

/-- C8: with a non-empty comparison-column list, the request's
`comparisonColumns` is exactly one 1-wide COLUMNS dimension range
`[col, col+1)` per listed column, in order, each on the target range's sheet
id; its length matches the input list's. -/
theorem delete_duplicates_comparison_columns
    (sheet_id start_row end_row start_col end_col : Int) (cols : List Int)
    (h : cols ≠ []) :
    (sheets_delete_duplicates_request sheet_id start_row end_row start_col end_col
        (some cols)).comparisonColumns =
      some (cols.map fun col => ⟨sheet_id, "COLUMNS", col, col + 1⟩) ∧
    (((sheets_delete_duplicates_request sheet_id start_row end_row start_col end_col
        (some cols)).comparisonColumns).getD []).length = cols.length := by
  match cols with
  | [] => exact absurd rfl h
  | c :: cs => exact ⟨rfl, by simp [sheets_delete_duplicates_request]⟩

/-- Witness for C8 at the spec's scenario: rows 0–100, columns 0–5,
comparison columns [0, 2]. -/
theorem delete_duplicates_comparison_columns_witness :
    (sheets_delete_duplicates_request 7 0 100 0 5 (some [0, 2])).comparisonColumns =
      some [⟨7, "COLUMNS", 0, 1⟩, ⟨7, "COLUMNS", 2, 3⟩] ∧
    (((sheets_delete_duplicates_request 7 0 100 0 5
        (some [0, 2])).comparisonColumns).getD []).length = 2 :=
  delete_duplicates_comparison_columns 7 0 100 0 5 [0, 2] (by decide)

/-- C9: the addChart request anchors the overlay at exactly the given row and
column on the given sheet, and forwards the chart type string verbatim. -/
theorem add_chart_anchor_and_type (sheet_id : Int) (chart_type data_range title : String)
    (row col : Int) :
    (sheets_add_chart_request sheet_id chart_type data_range title
        row col).chart.position.overlayPosition.anchorCell = ⟨sheet_id, row, col⟩ ∧
    (sheets_add_chart_request sheet_id chart_type data_range title
        row col).chart.spec.basicChart.chartType = chart_type ∧
    (sheets_add_chart_request sheet_id chart_type data_range title
        row col).chart.spec.title = title :=
  ⟨rfl, rfl, rfl⟩

/-- C10: an explicitly empty comparison-column list builds the same request as
an omitted one — the `comparisonColumns` key is absent in both. -/
theorem delete_duplicates_empty_list (sheet_id start_row end_row start_col end_col : Int) :
    sheets_delete_duplicates_request sheet_id start_row end_row start_col end_col
        (some []) =
      sheets_delete_duplicates_request sheet_id start_row end_row start_col end_col none ∧
    (sheets_delete_duplicates_request sheet_id start_row end_row start_col end_col
        (some [])).comparisonColumns = none :=
  ⟨rfl, rfl⟩

end SheetsMcp
